import Mathlib

/-!
Verification of the Feature & Aggregation Engine of the
marketing-campaign-performance-analysis repository.

Numeric model: pandas/numpy column arithmetic on floats is embedded as
exact rational arithmetic (`ℚ`) together with the IEEE-754 special values
that division can produce: `FVal` is a rational number, positive infinity,
negative infinity, or NaN. Division by zero follows IEEE semantics
(`x/0 = ±inf` for `x ≠ 0`, `0/0 = NaN`), which is what pandas Series
division does (it never raises). Comparisons against NaN are false, as in
Python. Grouped output has one row per distinct key; its row order (the
source's pandas `groupby` sorts keys, the embedding uses `List.dedup`
order) is immaterial: no property here depends on row order.
-/

/-- IEEE-flavoured value: a rational, an infinity, or NaN. -/
inductive FVal where
  | num (q : ℚ)
  | posInf
  | negInf
  | nan
deriving DecidableEq, Repr

/-- Division of two rationals with IEEE zero-denominator semantics,
as performed by pandas column division. -/
def qdiv (a b : ℚ) : FVal :=
  if b ≠ 0 then .num (a / b)
  else if 0 < a then .posInf
  else if a < 0 then .negInf
  else .nan

/-- Full IEEE-style division on `FVal` (needed for `efficiency_score`,
whose operands are themselves quotients). -/
def FVal.fdiv : FVal → FVal → FVal
  | .nan, _ => .nan
  | _, .nan => .nan
  | .num a, .num b => qdiv a b
  | .num _, .posInf => .num 0
  | .num _, .negInf => .num 0
  | .posInf, .num b => if b < 0 then .negInf else .posInf
  | .negInf, .num b => if b < 0 then .posInf else .negInf
  | .posInf, .posInf => .nan
  | .posInf, .negInf => .nan
  | .negInf, .posInf => .nan
  | .negInf, .negInf => .nan

/-- IEEE addition on `FVal` (used only to state share-sum properties). -/
def FVal.fadd : FVal → FVal → FVal
  | .nan, _ => .nan
  | _, .nan => .nan
  | .num a, .num b => .num (a + b)
  | .num _, .posInf => .posInf
  | .num _, .negInf => .negInf
  | .posInf, .num _ => .posInf
  | .negInf, .num _ => .negInf
  | .posInf, .posInf => .posInf
  | .negInf, .negInf => .negInf
  | .posInf, .negInf => .nan
  | .negInf, .posInf => .nan

/-- Sum of a list of `FVal`s. -/
def FVal.fsum (l : List FVal) : FVal := l.foldr FVal.fadd (.num 0)

/-- Python `<` on floats: any comparison involving NaN is false. -/
def FVal.flt : FVal → FVal → Bool
  | .nan, _ => false
  | _, .nan => false
  | .num a, .num b => a < b
  | .num _, .posInf => true
  | .num _, .negInf => false
  | .posInf, _ => false
  | .negInf, .posInf => true
  | .negInf, .num _ => true
  | .negInf, .negInf => false

/-- True exactly on the non-numeric values (NaN and the infinities):
the "undefined marker" family a zero denominator can produce. -/
def FVal.isUndef : FVal → Bool
  | .num _ => false
  | _ => true

/-- One canonical input record (one row of the cleaned table). -/
structure Record where
  campaign_id : String
  age : String
  gender : String
  impressions : ℚ
  clicks : ℚ
  spent : ℚ
  total_conversion : ℚ
  approved_conversion : ℚ
deriving DecidableEq, Repr

/-- The five per-record KPI columns added by
`MarketingFeatureEngineer.create_kpi_features`. -/
structure KpiFeatures where
  ctr : FVal
  conversion_rate : FVal
  approved_conversion_rate : FVal
  cost_per_acquisition : FVal
  cpm : FVal
deriving DecidableEq, Repr

/-- Embedding of `MarketingFeatureEngineer.create_kpi_features`, per record: each
`np.where(cond, a/b, sentinel)` is the guarded quotient it selects. -/
def create_kpi_features (r : Record) : KpiFeatures :=
  { ctr := if 0 < r.impressions then .num (r.clicks / r.impressions) else .num 0
    conversion_rate :=
      if 0 < r.clicks then .num (r.total_conversion / r.clicks) else .num 0
    approved_conversion_rate :=
      if 0 < r.total_conversion then
        .num (r.approved_conversion / r.total_conversion)
      else .num 0
    cost_per_acquisition :=
      if 0 < r.approved_conversion then
        .num (r.spent / r.approved_conversion)
      else .nan
    cpm := if 0 < r.impressions then .num (r.spent / r.impressions * 1000) else .num 0 }

/-- The `age_group` column from `create_demographic_features`: a copy of `age`. -/
def age_group (r : Record) : String := r.age

/-- The `demographic_segment` column from `create_demographic_features`:
`gender + "_" + age_group`. -/
def demographic_segment (r : Record) : String :=
  r.gender ++ "_" ++ age_group r

/-- Summed counters of one group (the `groupby(...).agg(...)` step shared
by `calculate_campaign_roi` and `_group_roi`). -/
structure GroupSums (κ : Type) where
  key : κ
  spent : ℚ
  impressions : ℚ
  clicks : ℚ
  approved_conversion : ℚ
deriving DecidableEq, Repr

/-- Embedding of `df.groupby(key).agg(sum of spent, impressions, clicks,
approved_conversion)`: one row per distinct key present in the input. -/
def groupSums {κ : Type} [DecidableEq κ] (key : Record → κ)
    (records : List Record) : List (GroupSums κ) :=
  ((records.map key).dedup).map fun k =>
    let part := records.filter fun r => decide (key r = k)
    { key := k
      spent := (part.map Record.spent).sum
      impressions := (part.map Record.impressions).sum
      clicks := (part.map Record.clicks).sum
      approved_conversion := (part.map Record.approved_conversion).sum }

/-- One output row of `MarketingROICalculator._group_roi`. -/
structure GroupMetrics (κ : Type) where
  key : κ
  spent : ℚ
  impressions : ℚ
  clicks : ℚ
  approved_conversion : ℚ
  revenue : ℚ
  profit : ℚ
  roi : FVal
  roas : FVal
  cpa : FVal
  spend_share : FVal
  conversion_share : FVal
  efficiency_score : FVal
deriving DecidableEq, Repr

/-- Embedding of `MarketingROICalculator._group_roi`: group by `key`, sum the four
counters, then derive revenue, profit, roi, roas, cpa, the two shares
(normalized by the grouped column sums of the same call) and the
efficiency score. -/
def group_roi {κ : Type} [DecidableEq κ] (conversion_value : ℚ)
    (key : Record → κ) (records : List Record) : List (GroupMetrics κ) :=
  let gs := groupSums key records
  let totalSpent := (gs.map GroupSums.spent).sum
  let totalConv := (gs.map GroupSums.approved_conversion).sum
  gs.map fun g =>
    let revenue := g.approved_conversion * conversion_value
    let profit := revenue - g.spent
    { key := g.key
      spent := g.spent
      impressions := g.impressions
      clicks := g.clicks
      approved_conversion := g.approved_conversion
      revenue := revenue
      profit := profit
      roi := qdiv profit g.spent
      roas := qdiv revenue g.spent
      cpa :=
        if (0:ℚ) < g.approved_conversion then
          .num (g.spent / g.approved_conversion)
        else .nan
      spend_share := qdiv g.spent totalSpent
      conversion_share := qdiv g.approved_conversion totalConv
      efficiency_score :=
        FVal.fdiv (qdiv g.approved_conversion totalConv) (qdiv g.spent totalSpent) }

/-- One output row of `MarketingROICalculator.calculate_campaign_roi`. -/
structure CampaignMetrics where
  campaign_id : String
  spent : ℚ
  impressions : ℚ
  clicks : ℚ
  approved_conversion : ℚ
  revenue : ℚ
  profit : ℚ
  roi : FVal
  roas : FVal
  cpa : FVal
  ctr : FVal
  conversion_rate : FVal
deriving DecidableEq, Repr

/-- Embedding of `MarketingROICalculator.calculate_campaign_roi`: group by campaign id,
sum counters, derive revenue, profit, roi, roas, guarded cpa, unguarded
ctr, guarded conversion_rate. -/
def calculate_campaign_roi (conversion_value : ℚ)
    (records : List Record) : List CampaignMetrics :=
  (groupSums Record.campaign_id records).map fun g =>
    let revenue := g.approved_conversion * conversion_value
    let profit := revenue - g.spent
    { campaign_id := g.key
      spent := g.spent
      impressions := g.impressions
      clicks := g.clicks
      approved_conversion := g.approved_conversion
      revenue := revenue
      profit := profit
      roi := qdiv profit g.spent
      roas := qdiv revenue g.spent
      cpa :=
        if (0:ℚ) < g.approved_conversion then
          .num (g.spent / g.approved_conversion)
        else .nan
      ctr := qdiv g.clicks g.impressions
      conversion_rate :=
        if (0:ℚ) < g.clicks then .num (g.approved_conversion / g.clicks) else .num 0 }

/-- The `tier` helper of `MarketingROICalculator.assign_performance_tiers`,
with Python float comparison semantics on its argument. -/
def tier (roas : FVal) : String :=
  if roas.flt (.num 1) then "Loss Making"
  else if roas.flt (.num 2) then "Break Even"
  else if roas.flt (.num 5) then "Profitable"
  else "Highly Profitable"

/-- A campaign-metrics row with the appended `performance_tier` column. -/
structure TieredCampaign extends CampaignMetrics where
  performance_tier : String
deriving DecidableEq, Repr

/-- Embedding of `MarketingROICalculator.assign_performance_tiers`: apply `tier` to the
`roas` column of the campaign table. -/
def assign_performance_tiers (cs : List CampaignMetrics) : List TieredCampaign :=
  cs.map fun c => { toCampaignMetrics := c, performance_tier := tier c.roas }

/-- The single aggregate row of `MarketingROICalculator.calculate_overall_roi`. -/
structure OverallMetrics where
  total_spend : ℚ
  total_revenue : ℚ
  total_profit : ℚ
  roi : FVal
  roas : FVal
  cpa : FVal
  ctr : FVal
  conversion_rate : FVal
deriving DecidableEq, Repr

/-- Embedding of `MarketingROICalculator.calculate_overall_roi`: sum the counters over
the whole input, then apply the guarded scalar formulas of the source
(`x if denom > 0 else 0`, except cpa which falls back to NaN). -/
def calculate_overall_roi (conversion_value : ℚ)
    (records : List Record) : OverallMetrics :=
  let total_spend := (records.map Record.spent).sum
  let total_impressions := (records.map Record.impressions).sum
  let total_clicks := (records.map Record.clicks).sum
  let total_conversions := (records.map Record.approved_conversion).sum
  let total_revenue := total_conversions * conversion_value
  { total_spend := total_spend
    total_revenue := total_revenue
    total_profit := total_revenue - total_spend
    roi :=
      if 0 < total_spend then .num ((total_revenue - total_spend) / total_spend)
      else .num 0
    roas := if 0 < total_spend then .num (total_revenue / total_spend) else .num 0
    cpa :=
      if 0 < total_conversions then .num (total_spend / total_conversions)
      else .nan
    ctr :=
      if 0 < total_impressions then .num (total_clicks / total_impressions)
      else .num 0
    conversion_rate :=
      if 0 < total_clicks then .num (total_conversions / total_clicks)
      else .num 0 }

/-! ## Concrete inputs used by witnesses and scenarios -/

/-- A record whose counters are all zero (spent 3 so only ratios degenerate). -/
def zeroCountersRec : Record :=
  { campaign_id := "c", age := "30-34", gender := "M", impressions := 0,
    clicks := 0, spent := 3, total_conversion := 0, approved_conversion := 0 }

/-- A record with every field zero (a zero-spend, zero-activity campaign). -/
def zeroSpendRec : Record :=
  { campaign_id := "Z", age := "30-34", gender := "F", impressions := 0,
    clicks := 0, spent := 0, total_conversion := 0, approved_conversion := 0 }

/-- A MALE / 25-34 record with unit counters. -/
def maleRec : Record :=
  { campaign_id := "c", age := "25-34", gender := "MALE", impressions := 1,
    clicks := 1, spent := 1, total_conversion := 1, approved_conversion := 1 }

/-- First record of the §8 scenario 6 campaign "C1". -/
def c9r1 : Record :=
  { campaign_id := "C1", age := "25-34", gender := "M", impressions := 1000,
    clicks := 50, spent := 10, total_conversion := 2, approved_conversion := 2 }

/-- Second record of the §8 scenario 6 campaign "C1". -/
def c9r2 : Record :=
  { campaign_id := "C1", age := "25-34", gender := "M", impressions := 0,
    clicks := 0, spent := 5, total_conversion := 0, approved_conversion := 0 }

/-- A record with zero impressions but positive clicks and spend. -/
def posClicksRec : Record :=
  { campaign_id := "A", age := "25-34", gender := "M", impressions := 0,
    clicks := 5, spent := 1, total_conversion := 0, approved_conversion := 0 }

/-- The group row produced by `group_roi 100 Record.gender [zeroSpendRec]`. -/
def gStar : GroupMetrics String :=
  { key := "F", spent := 0, impressions := 0, clicks := 0,
    approved_conversion := 0, revenue := 0, profit := 0, roi := .nan,
    roas := .nan, cpa := .nan, spend_share := .nan, conversion_share := .nan,
    efficiency_score := .nan }

/-- The campaign row produced by `calculate_campaign_roi 100 [zeroSpendRec]`. -/
def cStar : CampaignMetrics :=
  { campaign_id := "Z", spent := 0, impressions := 0, clicks := 0,
    approved_conversion := 0, revenue := 0, profit := 0, roi := .nan,
    roas := .nan, cpa := .nan, ctr := .nan, conversion_rate := .num 0 }

/-! ## Theorems -/

/-- C1: per-record KPI derivation resolves every zero-denominator ratio to
the numeric 0 (ctr when impressions = 0, conversion_rate when clicks = 0,
approved_conversion_rate when total_conversion = 0, cpm when
impressions = 0), except cost_per_acquisition, which is NaN when
approved_conversion = 0; the derivation is a total function, so no
exception can arise from zero counters. -/
theorem kpi_zero_denominator_policy (r : Record) :
    (r.impressions = 0 → (create_kpi_features r).ctr = .num 0) ∧
    (r.clicks = 0 → (create_kpi_features r).conversion_rate = .num 0) ∧
    (r.total_conversion = 0 → (create_kpi_features r).approved_conversion_rate = .num 0) ∧
    (r.impressions = 0 → (create_kpi_features r).cpm = .num 0) ∧
    (r.approved_conversion = 0 → (create_kpi_features r).cost_per_acquisition = .nan) := by
  refine ⟨fun h => ?_, fun h => ?_, fun h => ?_, fun h => ?_, fun h => ?_⟩ <;>
    simp [create_kpi_features, h]

/-- Witness for C1 at a concrete all-zero-counter record. -/
theorem kpi_zero_denominator_policy_witness :
    (create_kpi_features zeroCountersRec).ctr = .num 0 ∧
    (create_kpi_features zeroCountersRec).conversion_rate = .num 0 ∧
    (create_kpi_features zeroCountersRec).approved_conversion_rate = .num 0 ∧
    (create_kpi_features zeroCountersRec).cpm = .num 0 ∧
    (create_kpi_features zeroCountersRec).cost_per_acquisition = .nan := by
  obtain ⟨a, b, c, d, e⟩ := kpi_zero_denominator_policy zeroCountersRec
  exact ⟨a rfl, b rfl, c rfl, d rfl, e rfl⟩

/-- C2 (code bug): the source tier classifier has no branch for an
undefined ROAS. A zero-spend, zero-conversion campaign has ROAS = 0/0 =
NaN, every Python NaN comparison is false, and the classifier falls
through every branch to the fourth numeric tier "Highly Profitable"; a
zero-spend campaign with conversions gets ROAS = +inf, likewise
"Highly Profitable". No fifth outcome exists. -/
theorem tier_undefined_roas_silently_numeric :
    (assign_performance_tiers (calculate_campaign_roi 100 [zeroSpendRec])).map
        TieredCampaign.performance_tier = ["Highly Profitable"] ∧
    (calculate_campaign_roi 100 [zeroSpendRec]).map CampaignMetrics.roas = [.nan] ∧
    tier .nan = "Highly Profitable" ∧ tier .posInf = "Highly Profitable" := by
  refine ⟨?_, ?_, rfl, rfl⟩ <;>
    norm_num [assign_performance_tiers, calculate_campaign_roi, groupSums, qdiv,
      tier, FVal.flt, List.dedup, List.pwFilter, zeroSpendRec]

/-- C3: on real (numeric) ROAS values the tier classifier is total with
closed lower boundaries: roas < 1 is Loss Making, 1 ≤ roas < 2 is Break
Even, 2 ≤ roas < 5 is Profitable, 5 ≤ roas is Highly Profitable. -/
theorem tier_interval_boundaries (q : ℚ) :
    (q < 1 → tier (.num q) = "Loss Making") ∧
    (1 ≤ q → q < 2 → tier (.num q) = "Break Even") ∧
    (2 ≤ q → q < 5 → tier (.num q) = "Profitable") ∧
    (5 ≤ q → tier (.num q) = "Highly Profitable") := by
  refine ⟨fun h => ?_, fun h1 h2 => ?_, fun h1 h2 => ?_, fun h => ?_⟩ <;>
    simp only [tier, FVal.flt, decide_eq_true_eq] <;>
    split_ifs <;> first | rfl | linarith

/-- Witness for C3 at the two closed boundary points 1 and 5. -/
theorem tier_interval_boundaries_witness :
    tier (.num 1) = "Break Even" ∧ tier (.num 5) = "Highly Profitable" :=
  ⟨(tier_interval_boundaries 1).2.1 (by norm_num) (by norm_num),
   (tier_interval_boundaries 5).2.2.2 (by norm_num)⟩

/-- C8: demographic_segment is gender, a literal underscore, then age;
in particular gender "MALE" with age "25-34" gives "MALE_25-34". -/
theorem demographic_segment_concat (r : Record) :
    demographic_segment r = r.gender ++ "_" ++ r.age ∧
    (r.gender = "MALE" → r.age = "25-34" → demographic_segment r = "MALE_25-34") := by
  refine ⟨rfl, fun hg ha => ?_⟩
  simp [demographic_segment, age_group, hg, ha]

/-- Witness for C8 at a concrete MALE / 25-34 record. -/
theorem demographic_segment_concat_witness :
    demographic_segment maleRec = "MALE_25-34" :=
  (demographic_segment_concat maleRec).2 rfl rfl

/-- Division by a zero denominator never yields a numeric value. -/
theorem qdiv_zero_right_isUndef (a : ℚ) : (qdiv a 0).isUndef = true := by
  simp only [qdiv]
  split_ifs with h1 h2 h3 <;> first | (exact absurd rfl h1) | rfl

/-- A non-numeric value differs from every numeric value. -/
theorem isUndef_ne_num {x : FVal} (h : x.isUndef = true) (q : ℚ) : x ≠ .num q := by
  cases x <;> simp_all [FVal.isUndef]

/-- Dividing anything by the quotient `0/S` never yields a numeric value. -/
theorem fdiv_by_qdiv_zero_isUndef (x : FVal) (S : ℚ) :
    (FVal.fdiv x (qdiv 0 S)).isUndef = true := by
  by_cases hS : S = 0
  · subst hS
    have h0 : qdiv (0 : ℚ) 0 = .nan := by simp [qdiv]
    rw [h0]
    cases x <;> rfl
  · have h0 : qdiv (0 : ℚ) S = .num 0 := by simp [qdiv, hS]
    rw [h0]
    cases x with
    | num a => simpa [FVal.fdiv] using qdiv_zero_right_isUndef a
    | posInf => simp [FVal.fdiv, FVal.isUndef]
    | negInf => simp [FVal.fdiv, FVal.isUndef]
    | nan => rfl

/-- Summing a list of numeric `FVal`s gives the numeric sum. -/
theorem fsum_map_num {α : Type} (l : List α) (f : α → ℚ) :
    FVal.fsum (l.map fun x => FVal.num (f x)) = .num ((l.map f).sum) := by
  induction l with
  | nil => rfl
  | cons a t ih =>
    simp only [List.map_cons, List.sum_cons, FVal.fsum, List.foldr_cons] at *
    rw [ih]
    rfl

/-- Summing pointwise quotients by a common denominator. -/
theorem list_sum_map_div {α : Type} (l : List α) (f : α → ℚ) (c : ℚ) :
    (l.map fun x => f x / c).sum = (l.map f).sum / c := by
  induction l with
  | nil => simp
  | cons a t ih => simp [ih, add_div]

/-- The `spent` column of `_group_roi` output is the grouped `spent` sums. -/
theorem group_roi_map_spent {κ : Type} [DecidableEq κ] (cv : ℚ)
    (key : Record → κ) (records : List Record) :
    (group_roi cv key records).map GroupMetrics.spent
      = (groupSums key records).map GroupSums.spent := by
  simp only [group_roi, List.map_map]
  rfl

/-- The `approved_conversion` column of `_group_roi` output is the grouped
conversion sums. -/
theorem group_roi_map_conv {κ : Type} [DecidableEq κ] (cv : ℚ)
    (key : Record → κ) (records : List Record) :
    (group_roi cv key records).map GroupMetrics.approved_conversion
      = (groupSums key records).map GroupSums.approved_conversion := by
  simp only [group_roi, List.map_map]
  rfl

/-- The key column of `_group_roi` output is the dedup of the input keys. -/
theorem group_roi_map_key {κ : Type} [DecidableEq κ] (cv : ℚ)
    (key : Record → κ) (records : List Record) :
    (group_roi cv key records).map GroupMetrics.key = (records.map key).dedup := by
  simp only [group_roi, groupSums, List.map_map]
  exact Eq.trans (List.map_congr_left fun a ha => rfl) (List.map_id _)

/-- C9: the §8 scenario-6 pipeline: two records of campaign "C1" with
impressions [1000, 0], clicks [50, 0], spent [10, 5],
approved_conversion [2, 0] at conversion_value 100 aggregate to
spent 15, approved_conversion 2, revenue 200, profit 185, roi 185/15,
roas 200/15, cpa 15/2, ctr 1/20, and tier "Highly Profitable". -/
theorem campaign_scenario_c1 :
    assign_performance_tiers (calculate_campaign_roi 100 [c9r1, c9r2]) =
      [{ campaign_id := "C1", spent := 15, impressions := 1000, clicks := 50,
         approved_conversion := 2, revenue := 200, profit := 185,
         roi := .num (185 / 15), roas := .num (200 / 15), cpa := .num (15 / 2),
         ctr := .num (1 / 20), conversion_rate := .num (1 / 25),
         performance_tier := "Highly Profitable" }] := by
  norm_num [assign_performance_tiers, calculate_campaign_roi, groupSums, qdiv,
    tier, FVal.flt, List.dedup, List.pwFilter, c9r1, c9r2]

/-- C4: whenever a group's summed approved_conversion is 0 — in any
`_group_roi` call, in `calculate_campaign_roi`, and likewise per record —
the cpa field is NaN, never the numeric 0 (and the computation is total,
so no exception is possible). -/
theorem cpa_undefined_on_zero_conversions {κ : Type} [DecidableEq κ]
    (cv : ℚ) (key : Record → κ) (records : List Record) :
    (∀ g ∈ group_roi cv key records, g.approved_conversion = 0 →
        g.cpa = .nan ∧ g.cpa ≠ .num 0) ∧
    (∀ c ∈ calculate_campaign_roi cv records, c.approved_conversion = 0 →
        c.cpa = .nan ∧ c.cpa ≠ .num 0) ∧
    (∀ r : Record, r.approved_conversion = 0 →
        (create_kpi_features r).cost_per_acquisition = .nan) := by
  refine ⟨?_, ?_, ?_⟩
  · intro g hg h0
    simp only [group_roi, List.mem_map] at hg
    obtain ⟨g0, hg0, rfl⟩ := hg
    dsimp only at h0 ⊢
    rw [if_neg (by rw [h0]; exact lt_irrefl 0)]
    exact ⟨rfl, by simp⟩
  · intro c hc h0
    simp only [calculate_campaign_roi, List.mem_map] at hc
    obtain ⟨g0, hg0, rfl⟩ := hc
    dsimp only at h0 ⊢
    rw [if_neg (by rw [h0]; exact lt_irrefl 0)]
    exact ⟨rfl, by simp⟩
  · intro r h
    simp [create_kpi_features, h]

/-- Witness for C4 at the concrete zero-conversion group of
`group_roi 100 Record.gender [zeroSpendRec]`. -/
theorem cpa_undefined_on_zero_conversions_witness :
    gStar.cpa = FVal.nan ∧ gStar.cpa ≠ FVal.num 0 := by
  have hm : gStar ∈ group_roi 100 Record.gender [zeroSpendRec] := by
    norm_num [group_roi, groupSums, qdiv, FVal.fdiv, List.dedup, List.pwFilter,
      zeroSpendRec, gStar]
  exact (cpa_undefined_on_zero_conversions 100 Record.gender [zeroSpendRec]).1
    gStar hm rfl

/-- C5: within any single `_group_roi` call, if the total spend over the
call's groups is nonzero the spend_share column sums to exactly 1, and if
the total approved conversions over the call's groups is nonzero the
conversion_share column sums to exactly 1; both normalizers are the sums
over the groups of that same call only. -/
theorem shares_sum_to_one {κ : Type} [DecidableEq κ] (cv : ℚ)
    (key : Record → κ) (records : List Record) :
    (((group_roi cv key records).map GroupMetrics.spent).sum ≠ 0 →
      FVal.fsum ((group_roi cv key records).map GroupMetrics.spend_share) = .num 1) ∧
    (((group_roi cv key records).map GroupMetrics.approved_conversion).sum ≠ 0 →
      FVal.fsum ((group_roi cv key records).map GroupMetrics.conversion_share) = .num 1) := by
  constructor
  · intro h
    rw [group_roi_map_spent] at h
    have hmap : (group_roi cv key records).map GroupMetrics.spend_share
        = (groupSums key records).map (fun g =>
            FVal.num (g.spent / ((groupSums key records).map GroupSums.spent).sum)) := by
      simp only [group_roi, List.map_map]
      refine List.map_congr_left fun g hg => ?_
      simp only [Function.comp_apply]
      simp [qdiv, h]
    rw [hmap, fsum_map_num, list_sum_map_div, div_self h]
  · intro h
    rw [group_roi_map_conv] at h
    have hmap : (group_roi cv key records).map GroupMetrics.conversion_share
        = (groupSums key records).map (fun g =>
            FVal.num (g.approved_conversion
              / ((groupSums key records).map GroupSums.approved_conversion).sum)) := by
      simp only [group_roi, List.map_map]
      refine List.map_congr_left fun g hg => ?_
      simp only [Function.comp_apply]
      simp [qdiv, h]
    rw [hmap, fsum_map_num, list_sum_map_div, div_self h]

/-- Witness for C5 at a one-record call with nonzero totals. -/
theorem shares_sum_to_one_witness :
    FVal.fsum ((group_roi 100 Record.gender [maleRec]).map GroupMetrics.spend_share)
      = .num 1 ∧
    FVal.fsum ((group_roi 100 Record.gender [maleRec]).map GroupMetrics.conversion_share)
      = .num 1 :=
  ⟨(shares_sum_to_one 100 Record.gender [maleRec]).1
      (by norm_num [group_roi, groupSums, qdiv, FVal.fdiv, List.dedup,
        List.pwFilter, maleRec]),
   (shares_sum_to_one 100 Record.gender [maleRec]).2
      (by norm_num [group_roi, groupSums, qdiv, FVal.fdiv, List.dedup,
        List.pwFilter, maleRec])⟩

/-- C6: any `_group_roi` call is exhaustive — its key column has no
duplicates and carries exactly the distinct key values present in the
input — and a group whose summed spend is 0 is still emitted, with roi,
roas and efficiency_score all non-numeric undefined markers (in
particular none of them is the numeric 0), not dropped and not an error. -/
theorem aggregation_exhaustive_zero_spend_groups {κ : Type} [DecidableEq κ]
    (cv : ℚ) (key : Record → κ) (records : List Record) :
    ((group_roi cv key records).map GroupMetrics.key).Nodup ∧
    (∀ k, k ∈ (group_roi cv key records).map GroupMetrics.key ↔ k ∈ records.map key) ∧
    (∀ g ∈ group_roi cv key records, g.spent = 0 →
      g.roi.isUndef = true ∧ g.roas.isUndef = true ∧
      g.efficiency_score.isUndef = true ∧
      g.roi ≠ .num 0 ∧ g.roas ≠ .num 0 ∧ g.efficiency_score ≠ .num 0) := by
  refine ⟨?_, ?_, ?_⟩
  · rw [group_roi_map_key]
    exact (records.map key).nodup_dedup
  · intro k
    rw [group_roi_map_key]
    exact List.mem_dedup
  · intro g hg h0
    simp only [group_roi, List.mem_map] at hg
    obtain ⟨g0, hg0, rfl⟩ := hg
    dsimp only at h0 ⊢
    have hroi : (qdiv (g0.approved_conversion * cv - g0.spent) g0.spent).isUndef = true := by
      rw [h0]
      exact qdiv_zero_right_isUndef _
    have hroas : (qdiv (g0.approved_conversion * cv) g0.spent).isUndef = true := by
      rw [h0]
      exact qdiv_zero_right_isUndef _
    have heff : (FVal.fdiv
        (qdiv g0.approved_conversion
          ((List.map GroupSums.approved_conversion (groupSums key records)).sum))
        (qdiv g0.spent ((List.map GroupSums.spent (groupSums key records)).sum))).isUndef
          = true := by
      rw [h0]
      exact fdiv_by_qdiv_zero_isUndef _ _
    exact ⟨hroi, hroas, heff, isUndef_ne_num hroi 0, isUndef_ne_num hroas 0,
      isUndef_ne_num heff 0⟩

/-- Witness for C6 at the zero-spend single-record call: the group still
appears and its roi, roas and efficiency_score are all undefined. -/
theorem aggregation_exhaustive_zero_spend_groups_witness :
    gStar.roi.isUndef = true ∧ gStar.roas.isUndef = true ∧
    gStar.efficiency_score.isUndef = true ∧ gStar.roi ≠ FVal.num 0 ∧
    gStar.roas ≠ FVal.num 0 ∧ gStar.efficiency_score ≠ FVal.num 0 := by
  have hm : gStar ∈ group_roi 100 Record.gender [zeroSpendRec] := by
    norm_num [group_roi, groupSums, qdiv, FVal.fdiv, List.dedup, List.pwFilter,
      zeroSpendRec, gStar]
  exact (aggregation_exhaustive_zero_spend_groups 100 Record.gender
    [zeroSpendRec]).2.2 gStar hm rfl

/-- C7 counterexample: on an input whose total spend is 0, the overall roi
and roas produced by `calculate_overall_roi` are the numeric value 0, not
an undefined marker — refuting the claim that they follow the unguarded
group-level formulas. -/
theorem overall_zero_spend_counterexample :
    (calculate_overall_roi 100 [zeroSpendRec]).roi = FVal.num 0 ∧
    (calculate_overall_roi 100 [zeroSpendRec]).roas = FVal.num 0 ∧
    (FVal.num 0).isUndef = false := by
  norm_num [calculate_overall_roi, zeroSpendRec, FVal.isUndef]

/-- C7 amended: `calculate_overall_roi` sums all counters over the whole
input and applies guarded scalar formulas: with positive total spend, roi
and roas are the usual quotients, but with total spend not positive they
are the numeric 0 (unlike the unguarded group-level formulas); with total
approved conversions not positive, cpa is NaN. -/
theorem overall_metrics_guarded_formulas (cv : ℚ) (records : List Record) :
    (calculate_overall_roi cv records).total_spend = (records.map Record.spent).sum ∧
    (calculate_overall_roi cv records).total_revenue
      = (records.map Record.approved_conversion).sum * cv ∧
    (calculate_overall_roi cv records).total_profit
      = (records.map Record.approved_conversion).sum * cv
        - (records.map Record.spent).sum ∧
    (0 < (records.map Record.spent).sum →
      (calculate_overall_roi cv records).roi
        = .num (((records.map Record.approved_conversion).sum * cv
            - (records.map Record.spent).sum) / (records.map Record.spent).sum) ∧
      (calculate_overall_roi cv records).roas
        = .num ((records.map Record.approved_conversion).sum * cv
            / (records.map Record.spent).sum)) ∧
    ((records.map Record.spent).sum ≤ 0 →
      (calculate_overall_roi cv records).roi = .num 0 ∧
      (calculate_overall_roi cv records).roas = .num 0) ∧
    ((records.map Record.approved_conversion).sum ≤ 0 →
      (calculate_overall_roi cv records).cpa = .nan) := by
  refine ⟨rfl, rfl, rfl, fun h => ?_, fun h => ?_, fun h => ?_⟩
  · constructor <;> simp [calculate_overall_roi, h]
  · constructor <;> simp [calculate_overall_roi, not_lt.mpr h]
  · simp [calculate_overall_roi, not_lt.mpr h]

/-- Witness for C7 (amended) at the all-zero input: overall roi and roas
are the numeric 0 and overall cpa is NaN. -/
theorem overall_metrics_guarded_formulas_witness :
    (calculate_overall_roi 100 [zeroSpendRec]).roi = FVal.num 0 ∧
    (calculate_overall_roi 100 [zeroSpendRec]).roas = FVal.num 0 ∧
    (calculate_overall_roi 100 [zeroSpendRec]).cpa = FVal.nan := by
  obtain ⟨-, -, -, -, hz, hc⟩ := overall_metrics_guarded_formulas 100 [zeroSpendRec]
  have h0 : (([zeroSpendRec].map Record.spent).sum : ℚ) ≤ 0 := by
    norm_num [zeroSpendRec]
  have h1 : (([zeroSpendRec].map Record.approved_conversion).sum : ℚ) ≤ 0 := by
    norm_num [zeroSpendRec]
  exact ⟨(hz h0).1, (hz h0).2, hc h1⟩

/-- C10 counterexample: a campaign group with summed impressions 0 but
summed clicks 5 has ctr = +inf, which differs from the claimed
not-a-number marker. -/
theorem campaign_ctr_not_nan_counterexample :
    (calculate_campaign_roi 100 [posClicksRec]).map CampaignMetrics.impressions = [0] ∧
    (calculate_campaign_roi 100 [posClicksRec]).map CampaignMetrics.ctr = [FVal.posInf] ∧
    FVal.posInf ≠ FVal.nan := by
  refine ⟨?_, ?_, by simp⟩ <;>
    norm_num [calculate_campaign_roi, groupSums, qdiv, List.dedup, List.pwFilter,
      posClicksRec]

/-- C10 amended: campaign-level ctr is the unguarded quotient of summed
clicks by summed impressions, so a campaign group with summed
impressions 0 gets a non-numeric undefined marker — NaN exactly when its
summed clicks are also 0 — and never the numeric 0; per-record ctr, by
contrast, resolves zero-impression records to the numeric 0. -/
theorem campaign_ctr_unguarded_policy (cv : ℚ) (records : List Record) :
    (∀ c ∈ calculate_campaign_roi cv records, c.impressions = 0 →
      c.ctr.isUndef = true ∧ c.ctr ≠ .num 0 ∧ (c.clicks = 0 → c.ctr = .nan)) ∧
    (∀ r : Record, r.impressions = 0 → (create_kpi_features r).ctr = .num 0) := by
  constructor
  · intro c hc h0
    simp only [calculate_campaign_roi, List.mem_map] at hc
    obtain ⟨g0, hg0, rfl⟩ := hc
    dsimp only at h0 ⊢
    have hu : (qdiv g0.clicks g0.impressions).isUndef = true := by
      rw [h0]
      exact qdiv_zero_right_isUndef _
    refine ⟨hu, isUndef_ne_num hu 0, fun hc0 => ?_⟩
    rw [h0, hc0]
    simp [qdiv]
  · intro r h
    simp [create_kpi_features, h]

/-- Witness for C10 (amended) at the zero-impression zero-click campaign
and the zero-impression record. -/
theorem campaign_ctr_unguarded_policy_witness :
    cStar.ctr.isUndef = true ∧ cStar.ctr = FVal.nan ∧
    (create_kpi_features zeroCountersRec).ctr = FVal.num 0 := by
  obtain ⟨h1, h2⟩ := campaign_ctr_unguarded_policy 100 [zeroSpendRec]
  have hm : cStar ∈ calculate_campaign_roi 100 [zeroSpendRec] := by
    norm_num [calculate_campaign_roi, groupSums, qdiv, List.dedup, List.pwFilter,
      zeroSpendRec, cStar]
  obtain ⟨a, b, c⟩ := h1 cStar hm rfl
  exact ⟨a, c rfl, h2 zeroCountersRec rfl⟩
